import Mathlib

/-!
Verification of the task-dashboard core of `script.js` (tada-app).

The DOM task list is shallowly embedded: each top-level `<li>` task element
is a `TaskLi` record holding the data the script keeps on it (dataset
attributes, CSS-class flags, checkbox state, substep children), and each
substep `<li>` is a `SubstepLi`.  Dataset attributes that the code may
leave absent are `Option String`; attributes that every code path
initialises (`elapsedMs`, `priority`, `isUrgent`, `isImportant`,
`matrixTouched`) are plain `String`.  The JavaScript truthiness idiom
`x || d` on strings is `orElseS`/`orElseJS`.  Event handlers become pure
functions from the element state to the new element state, mirroring the
statement order of the script.
-/

/-- JS `s || d` for a string `s`: the empty string is falsy. -/
def orElseS (s d : String) : String := if s = "" then d else s

/-- The JS `\s` / `String.prototype.trim` whitespace characters (space,
tab, line feed, vertical tab, form feed, carriage return, no-break
space; the rarer Unicode space characters never occur in the inputs
modelled here). -/
def isSpaceJS (c : Char) : Bool :=
  c = ' ' || c = '\t' || c = '\n' || c = '\x0b' || c = '\x0c' || c = '\r' || c = '\u00A0'

/-- Strip leading and trailing JS whitespace from a character list. -/
def trimChars (l : List Char) : List Char :=
  ((l.dropWhile isSpaceJS).reverse.dropWhile isSpaceJS).reverse

/-- JS `s.trim()`. -/
def trimJS (s : String) : String := ⟨trimChars s.data⟩

/-- JS `x || d` where `x` is a possibly-absent dataset string
(`undefined` and `""` are both falsy). -/
def orElseJS : Option String → String → String
  | none, d => d
  | some s, d => orElseS s d

/-- A substep `<li>` as the script keeps it: `dataset.substepId`,
the `.substep-text` content, the `completed` class (kept in sync with the
checkbox), `dataset.etaMin`, `dataset.elapsedMs` and
`dataset.timerRunning` (`'true'` while its ticker runs). -/
structure SubstepLi where
  substepId : Option String
  text : String
  completed : Bool
  etaMin : Option String
  elapsedMs : String
  timerRunning : Bool
deriving DecidableEq, Repr

/-- A top-level task `<li>`: its dataset attributes, class flags and
children, as written by `createTaskElement` and the handlers. -/
structure TaskLi where
  taskId : Option String
  text : String
  desc : String
  priority : String
  deadline : Option String
  etaMin : Option String
  completed : Bool
  isUrgent : String
  isImportant : String
  elapsedMs : String
  collapsed : Bool
  matrixTouched : String
  timerRunning : Bool
  substeps : List SubstepLi
deriving DecidableEq, Repr

/-- Number of substeps carrying the `completed` class
(`querySelectorAll('.substeps-list > li.substep.completed').length`). -/
def completedSubstepCount (l : List SubstepLi) : Nat :=
  (l.filter (fun s => s.completed)).length

/-- `updateSubstepSummary(parentLi)` from `script.js`: counts total and
completed substeps and then sets the parent's `completed` class (and
checkbox) to `completed > 0 && completed === total`, clearing it
otherwise.  The percent/ratio display writes are presentation only. -/
def updateSubstepSummary (t : TaskLi) : TaskLi :=
  if 0 < completedSubstepCount t.substeps ∧
      completedSubstepCount t.substeps = t.substeps.length then
    { t with completed := true }
  else
    { t with completed := false }

/-- Set the `completed` class of the substep at index `i` (the substep
checkbox handler's `subLi.classList.toggle('completed', cb.checked)`). -/
def setSubstepCompleted : List SubstepLi → Nat → Bool → List SubstepLi
  | [], _, _ => []
  | s :: rest, 0, b => { s with completed := b } :: rest
  | s :: rest, n + 1, b => s :: setSubstepCompleted rest n b

/-- The substep checkbox click handler wired by `attachSubstepHandlers`:
toggle the substep's `completed` class to the checkbox state, then run
`updateSubstepSummary` on the parent task (the timer-card sync only
touches display classes). -/
def substepToggleClick (t : TaskLi) (i : Nat) (checked : Bool) : TaskLi :=
  updateSubstepSummary { t with substeps := setSubstepCompleted t.substeps i checked }

/-- The substep delete-button handler wired by `attachSubstepHandlers`:
remove the substep `<li>` from the DOM, then run `updateSubstepSummary`
on the parent task. -/
def substepDeleteClick (t : TaskLi) (i : Nat) : TaskLi :=
  updateSubstepSummary { t with substeps := t.substeps.eraseIdx i }

/-- A freshly created substep element (`createSubstepElement` plus the
`substep-N` id assigned by the caller): not completed, no ETA,
`elapsedMs = '0'`, timer not running. -/
def newSubstepLi (text fresh : String) : SubstepLi :=
  { substepId := some fresh
    text := text
    completed := false
    etaMin := none
    elapsedMs := "0"
    timerRunning := false }

/-- `addSubFromInput` inside `attachTaskEventHandlers`: trim the substep
input; ignore it when empty, otherwise append a fresh substep element and
run `updateSubstepSummary` on the parent. -/
def addSubFromInput (t : TaskLi) (input fresh : String) : TaskLi :=
  if trimJS input = "" then t
  else
    updateSubstepSummary
      { t with substeps := t.substeps ++ [newSubstepLi (trimJS input) fresh] }

/-- A concrete task used to witness Claim C1: two substeps, one already
completed. -/
def rollupExampleTask : TaskLi :=
  { taskId := some "task-1"
    text := "Plan trip"
    desc := ""
    priority := "medium"
    deadline := none
    etaMin := none
    completed := false
    isUrgent := "false"
    isImportant := "false"
    elapsedMs := "0"
    collapsed := false
    matrixTouched := "false"
    timerRunning := false
    substeps :=
      [ { substepId := some "substep-0", text := "book flights", completed := true
          etaMin := none, elapsedMs := "0", timerRunning := false },
        { substepId := some "substep-1", text := "book hotel", completed := false
          etaMin := none, elapsedMs := "0", timerRunning := false } ] }

/-- A completed task with no substeps, as `loadTasks` rebuilds it right
before the final `updateSubstepSummary` call (the user had checked its
checkbox and the serialized record carried `completed: true`). -/
def completedNoSubstepTask : TaskLi :=
  { taskId := some "task-1"
    text := "Pay rent"
    desc := ""
    priority := "medium"
    deadline := none
    etaMin := none
    completed := true
    isUrgent := "false"
    isImportant := "false"
    elapsedMs := "0"
    collapsed := false
    matrixTouched := "false"
    timerRunning := false
    substeps := [] }

/-- The serialized substep record inside the `myDashboard_tasks_v1`
snapshot, exactly the fields `serializeSubstep` writes. -/
structure SubRec where
  id : String
  text : String
  completed : Bool
  etaMin : String
  elapsedMs : String
deriving DecidableEq, Repr

/-- The serialized task record, exactly the fields `serializeTask`
writes.  Note `priority`, `timerRunning` and `matrixTouched` are not
part of the record. -/
structure TaskRec where
  id : String
  text : String
  desc : String
  deadline : String
  etaMin : String
  completed : Bool
  isUrgent : String
  isImportant : String
  elapsedMs : String
  collapsed : Bool
  substeps : List SubRec
deriving DecidableEq, Repr

/-- `serializeSubstep(subLi)` from `script.js`. -/
def serializeSubstep (s : SubstepLi) : SubRec :=
  { id := orElseJS s.substepId ""
    text := s.text
    completed := s.completed
    etaMin := orElseJS s.etaMin ""
    elapsedMs := orElseS s.elapsedMs "0" }

/-- `serializeTask(li)` from `script.js`. -/
def serializeTask (t : TaskLi) : TaskRec :=
  { id := orElseJS t.taskId ""
    text := orElseS t.text ""
    desc := orElseS t.desc ""
    deadline := orElseJS t.deadline ""
    etaMin := orElseJS t.etaMin ""
    completed := t.completed
    isUrgent := orElseS t.isUrgent "false"
    isImportant := orElseS t.isImportant "false"
    elapsedMs := orElseS t.elapsedMs "0"
    collapsed := t.collapsed
    substeps := t.substeps.map serializeSubstep }

/-- `saveTasks()`: the snapshot is the ordered array of serialized
top-level tasks. -/
def saveTasks (l : List TaskLi) : List TaskRec := l.map serializeTask

/-- One substep of the `loadTasks` rebuild loop: `createSubstepElement`
(`elapsedMs = '0'`, timer not running) followed by the dataset writes
(`sub.id`/`sub.etaMin` only when truthy, `sub.elapsedMs || '0'`) and the
`completed` class/checkbox restore. -/
def loadSubstep (r : SubRec) : SubstepLi :=
  { substepId := if r.id = "" then none else some r.id
    text := orElseS r.text ""
    completed := r.completed
    etaMin := if r.etaMin = "" then none else some r.etaMin
    elapsedMs := orElseS r.elapsedMs "0"
    timerRunning := false }

/-- One task of the `loadTasks` rebuild loop:
`createTaskElement(task.text || 'Untitled', 'medium', task.deadline || '')`
(which runs `applyDeadline`, removing the attribute when falsy), then the
dataset writes (`isUrgent`/`isImportant`/`elapsedMs` with their `||`
defaults, `etaMin` only when truthy), the `completed` and `collapsed`
class restores, `attachTaskEventHandlers` (which runs
`updateSubstepSummary` on the still substep-free element and assigns
`freshId` only when the record id is falsy), the substep rebuild loop,
and the final `updateSubstepSummary`. -/
def loadTask (r : TaskRec) (freshId : String) : TaskLi :=
  let t0 : TaskLi :=
    { taskId := if r.id = "" then some freshId else some r.id
      text := orElseS r.text "Untitled"
      desc := orElseS r.desc ""
      priority := "medium"
      deadline := if r.deadline = "" then none else some r.deadline
      etaMin := if r.etaMin = "" then none else some r.etaMin
      completed := r.completed
      isUrgent := orElseS r.isUrgent "false"
      isImportant := orElseS r.isImportant "false"
      elapsedMs := orElseS r.elapsedMs "0"
      collapsed := r.collapsed
      matrixTouched := "false"
      timerRunning := false
      substeps := [] }
  let t1 := updateSubstepSummary t0
  updateSubstepSummary { t1 with substeps := r.substeps.map loadSubstep }

/-- `loadTasks()` over the whole stored array: every record is rebuilt in
order; the fresh id `fresh n` is consulted only for a record whose own id
is empty. -/
def loadTasks (rs : List TaskRec) (fresh : Nat → String) : List TaskLi :=
  rs.enum.map (fun p => loadTask p.2 (fresh p.1))

/-- Invariants that hold of every live substep element: creation assigns
a nonempty `substep-N` id, `elapsedMs` starts at `'0'` and is only ever
written a decimal number, and the ETA attribute is removed rather than
set empty. -/
def WellformedSubstepLi (s : SubstepLi) : Prop :=
  s.substepId ≠ none ∧ s.substepId ≠ some "" ∧ s.etaMin ≠ some "" ∧ s.elapsedMs ≠ ""

/-- Invariants that hold of every live task element: nonempty id and
text, `'true'`/`'false'` flag strings, initialised `elapsedMs`, and
deadline/ETA attributes removed rather than set empty. -/
def WellformedTaskLi (t : TaskLi) : Prop :=
  t.taskId ≠ none ∧ t.taskId ≠ some "" ∧ t.text ≠ "" ∧ t.deadline ≠ some "" ∧
    t.etaMin ≠ some "" ∧ t.isUrgent ≠ "" ∧ t.isImportant ≠ "" ∧ t.elapsedMs ≠ "" ∧
    ∀ s ∈ t.substeps, WellformedSubstepLi s

instance : DecidablePred WellformedSubstepLi := fun s => by
  unfold WellformedSubstepLi
  infer_instance

instance : DecidablePred WellformedTaskLi := fun t => by
  unfold WellformedTaskLi
  infer_instance

/-- What a reload actually preserves of a live task: every field
survives except `priority` (not serialized; `loadTasks` rebuilds with
`'medium'`), `timerRunning` and `matrixTouched` (not serialized), and
`completed`, which the final `updateSubstepSummary` recomputes from the
substeps. -/
def reloadImage (t : TaskLi) : TaskLi :=
  { t with
    priority := "medium"
    matrixTouched := "false"
    timerRunning := false
    completed := decide (0 < completedSubstepCount t.substeps ∧
      completedSubstepCount t.substeps = t.substeps.length)
    substeps := t.substeps.map (fun s => { s with timerRunning := false }) }

/-- The fresh-id source used by the round-trip witness (never consulted,
since all witness tasks carry ids). -/
def freshTaskIds (n : Nat) : String := "task-" ++ toString n

/-- Witness store for the round-trip: three tasks, one with two substeps,
one with a timer paused at 65000 ms. -/
def roundtripStore : List TaskLi :=
  [ { rollupExampleTask with taskId := some "task-10" },
    { taskId := some "task-11"
      text := "Write report"
      desc := "Q3 numbers"
      priority := "medium"
      deadline := some "2026-02-15"
      etaMin := some "90"
      completed := false
      isUrgent := "true"
      isImportant := "true"
      elapsedMs := "65000"
      collapsed := false
      matrixTouched := "false"
      timerRunning := false
      substeps := [] },
    { taskId := some "task-12"
      text := "Water plants"
      desc := ""
      priority := "medium"
      deadline := none
      etaMin := none
      completed := false
      isUrgent := "false"
      isImportant := "false"
      elapsedMs := "0"
      collapsed := true
      matrixTouched := "false"
      timerRunning := false
      substeps := [] } ]

/-- Counterexample input for the literal round-trip claim: a completed,
high-priority, substep-free task. -/
def highPriorityDoneTask : TaskLi :=
  { taskId := some "task-20"
    text := "Pay bills"
    desc := ""
    priority := "high"
    deadline := some "2026-01-03"
    etaMin := none
    completed := true
    isUrgent := "false"
    isImportant := "false"
    elapsedMs := "65000"
    collapsed := false
    matrixTouched := "false"
    timerRunning := false
    substeps := [] }

/-- Decimal value of a digit run (most significant first). -/
def digitsToNat (l : List Char) : Nat :=
  l.foldl (fun acc c => acc * 10 + (c.toNat - 48)) 0

/-- JS `parseInt(s, 10)`: skip leading whitespace, allow one sign, then
read the longest run of decimal digits, ignoring whatever follows;
`none` models the `NaN` result when no digit is read. -/
def parseIntJS (s : String) : Option Int :=
  match s.data.dropWhile isSpaceJS with
  | '-' :: rest =>
      if rest.takeWhile Char.isDigit = [] then none
      else some (-(digitsToNat (rest.takeWhile Char.isDigit) : Int))
  | '+' :: rest =>
      if rest.takeWhile Char.isDigit = [] then none
      else some ((digitsToNat (rest.takeWhile Char.isDigit) : Int))
  | l =>
      if l.takeWhile Char.isDigit = [] then none
      else some ((digitsToNat (l.takeWhile Char.isDigit) : Int))

/-- `getTaskCategory(etaMin)` from `script.js`: Quick below 15 minutes,
Core for 15 to 60, Major above (icon/colour fields are presentation). -/
def getTaskCategory (etaMin : Int) : String :=
  if etaMin < 15 then "Quick"
  else if 15 ≤ etaMin ∧ etaMin ≤ 60 then "Core"
  else "Major"

/-- The `const etaMin = taskLi.dataset.etaMin ? parseInt(...) : null`
line of `autoClassifyTask`, with the `typeof`/`isNaN` guard folded in:
`none` covers the absent, empty and `NaN` cases the guard skips. -/
def parsedEta (t : TaskLi) : Option Int :=
  match t.etaMin with
  | none => none
  | some v => if v = "" then none else parseIntJS v

/-- `autoClassifyTask(taskLi)` from `script.js`: defaults
`important = true`, `urgent = false`; a parsed estimate makes the task
unimportant when its category is Quick and urgent when under 60 minutes;
a nonempty deadline equal to `today` (the `YYYY-MM-DD` rendering of now)
makes it urgent; both flags are written back as dataset strings.  (The
function is defined in `script.js` but has no caller.) -/
def autoClassifyTask (t : TaskLi) (today : String) : TaskLi :=
  let isImportant1 : Bool :=
    match parsedEta t with
    | none => true
    | some e =>
      if getTaskCategory e = "Quick" then false
      else if getTaskCategory e = "Core" ∨ getTaskCategory e = "Major" then true
      else true
  let isUrgent1 : Bool :=
    match parsedEta t with
    | none => false
    | some e => if e < 60 then true else false
  let deadline := orElseJS t.deadline ""
  let isUrgent2 : Bool := if deadline ≠ "" ∧ deadline = today then true else isUrgent1
  { t with
    isImportant := if isImportant1 then "true" else "false"
    isUrgent := if isUrgent2 then "true" else "false" }

/-- Quadrant selection from `renderMatrixView`: the dataset strings are
read back as `isImportant !== 'false'` and `isUrgent === 'true'`. -/
def matrixQuadrant (isUrgentDs isImportantDs : String) : String :=
  if isUrgentDs = "true" ∧ isImportantDs ≠ "false" then "do-first"
  else if ¬ isUrgentDs = "true" ∧ isImportantDs ≠ "false" then "schedule"
  else if isUrgentDs = "true" ∧ isImportantDs = "false" then "delegate"
  else "eliminate"

/-- The spec-side classification rule, for comparison with
`autoClassifyTask`: important unless the estimate is Quick (under 15
minutes); urgent iff the estimate is under 60 minutes or the deadline
equals the current calendar day. -/
def specImportant (etaMin : Option Int) : Bool :=
  match etaMin with
  | none => true
  | some e => !(decide (e < 15))

/-- Spec-side urgency rule, see `specImportant`. -/
def specUrgent (etaMin : Option Int) (deadline : Option String) (today : String) : Bool :=
  (match etaMin with
   | none => false
   | some e => decide (e < 60)) || decide (deadline = some today)

/-- A never-classified task with a 10-minute estimate and no deadline. -/
def quickExampleTask : TaskLi :=
  { taskId := some "task-30"
    text := "Reply to email"
    desc := ""
    priority := "medium"
    deadline := none
    etaMin := some "10"
    completed := false
    isUrgent := "false"
    isImportant := "false"
    elapsedMs := "0"
    collapsed := false
    matrixTouched := "false"
    timerRunning := false
    substeps := [] }

/-- The countdown rendering of `updateDeadlineCountdown`: the CSS bucket
class and the numbers interpolated into the label. -/
inductive CountdownDisplay
  | overdue (days hours : Nat)
  | critical (hours minutes : Nat)
  | urgent (days hours : Nat)
  | warning (days hours : Nat)
  | safe (days : Nat)
deriving DecidableEq, Repr

/-- The CSS class a countdown display carries. -/
def CountdownDisplay.bucket : CountdownDisplay → String
  | .overdue _ _ => "overdue"
  | .critical _ _ => "critical"
  | .urgent _ _ => "urgent"
  | .warning _ _ => "warning"
  | .safe _ => "safe"

/-- `updateDeadlineCountdown(li)` for a task with a deadline, as a
function of `diffMs = (deadline date at 23:59:59 local) - now` in
milliseconds.  `Math.floor` of the nonnegative quotients is integer
division, and the bucket tests `totalHours < 24` etc. on the real
quotient `diffMs / 3600000` are exactly the millisecond comparisons
used here. -/
def updateDeadlineCountdown (diffMs : Int) : CountdownDisplay :=
  if diffMs < 0 then
    .overdue (diffMs.natAbs / 86400000) (diffMs.natAbs / 3600000 % 24)
  else if diffMs < 86400000 then
    .critical (diffMs.toNat / 3600000 % 24) (diffMs.toNat / 60000 % 60)
  else if diffMs < 172800000 then
    .urgent (diffMs.toNat / 86400000) (diffMs.toNat / 3600000 % 24)
  else if diffMs < 604800000 then
    .warning (diffMs.toNat / 86400000) (diffMs.toNat / 3600000 % 24)
  else
    .safe (diffMs.toNat / 86400000)

/-- JS `String(parseInt(v, 10))` as stored into `dataset.etaMin`:
integers print in decimal, `NaN` prints as the string `'NaN'`. -/
def jsIntString : Option Int → String
  | none => "NaN"
  | some i => toString i

/-- The `eta-input` change handler in `attachTaskEventHandlers`: a
nonempty trimmed value is parsed with `parseInt(v, 10)` and stored via
`String(...)` in `dataset.etaMin`; an empty one removes the attribute
(badge and matrix redraws touch no task state). -/
def etaInputChange (t : TaskLi) (v : String) : TaskLi :=
  if trimJS v = "" then { t with etaMin := none }
  else { t with etaMin := some (jsIntString (parseIntJS (trimJS v))) }

/-- The `substep-eta-input` change handler in `attachSubstepHandlers`:
identical treatment of `dataset.etaMin` on the substep. -/
def substepEtaInputChange (s : SubstepLi) (v : String) : SubstepLi :=
  if trimJS v = "" then { s with etaMin := none }
  else { s with etaMin := some (jsIntString (parseIntJS (trimJS v))) }

/-- The `toggle-urgent` change handler in `attachTaskEventHandlers`:
write the checkbox state to `dataset.isUrgent` and set
`dataset.matrixTouched = 'true'` (`updateStatusIcon` and `sortTasks`
write no per-task classification state). -/
def urgentToggleChange (t : TaskLi) (checked : Bool) : TaskLi :=
  { t with isUrgent := if checked then "true" else "false", matrixTouched := "true" }

/-- The `toggle-important` change handler, symmetric to
`urgentToggleChange`. -/
def importantToggleChange (t : TaskLi) (checked : Bool) : TaskLi :=
  { t with isImportant := if checked then "true" else "false", matrixTouched := "true" }

/-- The quadrant drop handler in `setupMatrixDnD`: write both flags
according to the target quadrant; `dataset.matrixTouched` is NOT
written. -/
def matrixDrop (t : TaskLi) (quadrant : String) : TaskLi :=
  if quadrant = "do-first" then { t with isUrgent := "true", isImportant := "true" }
  else if quadrant = "schedule" then { t with isUrgent := "false", isImportant := "true" }
  else if quadrant = "delegate" then { t with isUrgent := "true", isImportant := "false" }
  else if quadrant = "eliminate" then { t with isUrgent := "false", isImportant := "false" }
  else t

/-- `moveCompletedTaskToBottom(li)`: `listContainer.appendChild` on an
element already in the container detaches it from its position and
appends it at the end, leaving the other children in order. -/
def moveCompletedTaskToBottom (l : List TaskLi) (i : Nat) : List TaskLi :=
  match l.get? i with
  | none => l
  | some t => l.eraseIdx i ++ [t]

/-- The task-checkbox click handler in `attachTaskEventHandlers`: set
the task's `completed` class from the checkbox, and only when checking,
run `moveCompletedTaskToBottom` (confetti, timer-status sync and the
counters mutate no list state). -/
def taskCheckboxClick (l : List TaskLi) (i : Nat) (checked : Bool) : List TaskLi :=
  match l.get? i with
  | none => l
  | some t =>
    if checked then moveCompletedTaskToBottom (l.set i { t with completed := checked }) i
    else l.set i { t with completed := checked }

/-- An untouched task sitting in the Eliminate quadrant, dropped on the
Do-First cell in the counterexample below. -/
def untouchedDropTask : TaskLi :=
  { taskId := some "task-40"
    text := "Refactor login"
    desc := ""
    priority := "medium"
    deadline := none
    etaMin := none
    completed := false
    isUrgent := "false"
    isImportant := "false"
    elapsedMs := "0"
    collapsed := false
    matrixTouched := "false"
    timerRunning := false
    substeps := [] }

/-- Task receiving ETA input in the Claim C9 examples. -/
def etaExampleTask : TaskLi :=
  { untouchedDropTask with taskId := some "task-41", text := "Clean desk" }

/-- Substep receiving ETA input in the Claim C9 witness. -/
def etaExampleSubstep : SubstepLi :=
  { substepId := some "substep-41"
    text := "wipe surface"
    completed := false
    etaMin := none
    elapsedMs := "0"
    timerRunning := false }

/-- Three-task store for the Claim C10 witness. -/
def checkboxStore : List TaskLi :=
  [ { untouchedDropTask with taskId := some "task-50", text := "First" },
    { untouchedDropTask with taskId := some "task-51", text := "Second" },
    { untouchedDropTask with taskId := some "task-52", text := "Third" } ]

/-- JS `text.replace(/\r\n/g, '\n')`: global, non-overlapping,
left-to-right replacement of CRLF pairs. -/
def normalizeCRLF : List Char → List Char
  | [] => []
  | '\r' :: '\n' :: rest => '\n' :: normalizeCRLF rest
  | c :: rest => c :: normalizeCRLF rest

/-- JS `raw.split('\n')` (always at least one piece). -/
def splitOnNl : List Char → List (List Char)
  | [] => [[]]
  | '\n' :: rest => [] :: splitOnNl rest
  | c :: rest =>
    match splitOnNl rest with
    | [] => [[c]]
    | h :: t => (c :: h) :: t

/-- JS `parts.join('\n')`. -/
def joinWithNl : List (List Char) → List Char
  | [] => []
  | [l] => l
  | l :: rest => l ++ '\n' :: joinWithNl rest

/-- Continuation of the ordinal marker after its first digit: further
digits, then `.`, then at least one whitespace character. -/
def digitsDotTail : List Char → Bool
  | [] => false
  | '.' :: rest => (match rest with | [] => false | c :: _ => isSpaceJS c)
  | c :: rest => c.isDigit && digitsDotTail rest

/-- The smart-paste list-item regex `^\s*(\d+\.|[-*•])\s+`
(`listRegex.test(trimmed)` in `smartParsePaste`; the bullet alternative
is the Unicode bullet). -/
def listMarkerTest (l : List Char) : Bool :=
  match l.dropWhile isSpaceJS with
  | [] => false
  | c :: rest =>
    if c = '-' || c = '*' || c = '•' then
      (match rest with | [] => false | d :: _ => isSpaceJS d)
    else c.isDigit && digitsDotTail rest

/-- The classification loop of `smartParsePaste`: blank lines are
skipped; a line whose trimmed form matches the marker regex is pushed
(trimmed, marker intact) onto `subSteps`; any other line is pushed raw
onto `descriptionLines`.  Both outputs keep input order. -/
def classifyLines : List (List Char) → List (List Char) × List (List Char)
  | [] => ([], [])
  | line :: rest =>
    if trimChars line = [] then classifyLines rest
    else if listMarkerTest (trimChars line) then
      (trimChars line :: (classifyLines rest).1, (classifyLines rest).2)
    else ((classifyLines rest).1, line :: (classifyLines rest).2)

/-- Result of `smartParsePaste`. -/
structure PasteParse where
  description : String
  subSteps : List String
deriving DecidableEq, Repr

/-- `smartParsePaste(text)` from `script.js`: normalize line endings,
trim; an empty result short-circuits; otherwise split into lines,
classify them, and return the non-list lines joined by newlines and
trimmed as the description, with the matched lines as the sub-steps. -/
def smartParsePaste (text : String) : PasteParse :=
  if trimChars (normalizeCRLF text.data) = [] then
    { description := "", subSteps := [] }
  else
    { description :=
        ⟨trimChars (joinWithNl
          (classifyLines (splitOnNl (trimChars (normalizeCRLF text.data)))).2)⟩
      subSteps :=
        (classifyLines (splitOnNl (trimChars (normalizeCRLF text.data)))).1.map
          (fun l => (⟨l⟩ : String)) }

/-- The title computation at both paste call sites:
`description.split('\n').filter(Boolean)[0] || 'New Task'`. -/
def pasteTitle (description : String) : String :=
  match (splitOnNl description.data).filter (fun l => !l.isEmpty) with
  | [] => "New Task"
  | h :: _ => ⟨h⟩

/-- Gregorian leap-year rule (as in ECMAScript day-number math). -/
def isLeapYear (y : Nat) : Bool :=
  y % 4 = 0 && (y % 100 ≠ 0 || y % 400 = 0)

/-- Days in month `m` (1-12) of year `y`. -/
def daysInMonth (y m : Nat) : Nat :=
  if m = 2 then (if isLeapYear y then 29 else 28)
  else if m = 4 || m = 6 || m = 9 || m = 11 then 30
  else 31

/-- Days in year `y` before month `m`. -/
def daysBeforeMonth (y : Nat) : Nat → Nat
  | 0 => 0
  | 1 => 0
  | Nat.succ m => daysBeforeMonth y m + daysInMonth y m

/-- Days before January 1 of year `y` in the proleptic Gregorian
calendar (counted from year 1). -/
def daysBeforeYear (y : Nat) : Nat :=
  365 * (y - 1) + (y - 1) / 4 - (y - 1) / 100 + (y - 1) / 400

/-- Day number of `y-m-d` relative to the 1970-01-01 epoch. -/
def epochDays (y m d : Nat) : Int :=
  ((daysBeforeYear y + daysBeforeMonth y m + (d - 1) : Nat) : Int) -
    ((daysBeforeYear 1970 : Nat) : Int)

/-- Split a character list at every occurrence of `sep`. -/
def splitOnChar (sep : Char) : List Char → List (List Char)
  | [] => [[]]
  | c :: rest =>
    if c = sep then [] :: splitOnChar sep rest
    else
      match splitOnChar sep rest with
      | [] => [[c]]
      | h :: t => (c :: h) :: t

/-- `new Date(s).getTime()` for the `YYYY-MM-DD` strings a date input
produces: ECMAScript parses the date-only ISO form as UTC midnight and
rejects out-of-range fields as an invalid date (`none` models `NaN`).
`epochDays` is the proleptic Gregorian day number the `Date` spec uses,
so this is the actual millisecond time value. -/
def parseISODate (s : String) : Option Int :=
  match splitOnChar '-' s.data with
  | [ys, ms, ds] =>
    if ys.length = 4 && ms.length = 2 && ds.length = 2 &&
        ys.all Char.isDigit && ms.all Char.isDigit && ds.all Char.isDigit then
      if 1 ≤ digitsToNat ms && digitsToNat ms ≤ 12 &&
          1 ≤ digitsToNat ds &&
          digitsToNat ds ≤ daysInMonth (digitsToNat ys) (digitsToNat ms) then
        some (epochDays (digitsToNat ys) (digitsToNat ms) (digitsToNat ds) * 86400000)
      else none
    else none
  | _ => none

/-- The deadline sort key `a.dataset.deadline ? new Date(...).getTime()
: Infinity`: a missing (or falsy) attribute is `Infinity`, an
unparseable date is `NaN`. -/
inductive DKey
  | fin (ms : Int)
  | inf
  | nan
deriving DecidableEq, Repr

/-- Deadline sort key of a task, see `DKey`. -/
def dateKeyOf : Option String → DKey
  | none => .inf
  | some s =>
    if s = "" then .inf
    else
      match parseISODate s with
      | some ms => .fin ms
      | none => .nan

/-- Sign of the comparator return `da - db` on deadline keys; any
expression involving `NaN`, and `Infinity - Infinity`, is `NaN`, which
`SortCompare` coerces to `0`. -/
def dkeyCmp : DKey → DKey → Ordering
  | .nan, _ => .eq
  | _, .nan => .eq
  | .inf, .inf => .eq
  | .inf, .fin _ => .gt
  | .fin _, .inf => .lt
  | .fin x, .fin y => if x < y then .lt else if y < x then .gt else .eq

/-- `order[a.dataset.priority || 'medium']` with
`order = do high: 3, medium: 2, low: 1`; any other string indexes to
`undefined`. -/
def priorityWeight (p : String) : Option Nat :=
  if orElseS p "medium" = "high" then some 3
  else if orElseS p "medium" = "medium" then some 2
  else if orElseS p "medium" = "low" then some 1
  else none

/-- The `sortByUrgency` comparator: `pb - pa` when the weights differ
(`pb !== pa`), so a positive difference puts `a` after `b`; equal
weights fall through to the deadline difference; if exactly one weight
is `undefined` the subtraction is `NaN`, a `0` result. -/
def cmpUrgency (a b : TaskLi) : Ordering :=
  match priorityWeight a.priority, priorityWeight b.priority with
  | some x, some y =>
    if x = y then dkeyCmp (dateKeyOf a.deadline) (dateKeyOf b.deadline)
    else if x < y then .gt else .lt
  | none, none => dkeyCmp (dateKeyOf a.deadline) (dateKeyOf b.deadline)
  | _, _ => .eq

/-- Stable insertion into a sorted prefix: a later element passes every
element it does not strictly precede.  Iterated over the list this
reproduces the unique stable order that `Array.prototype.sort` (stable
per the ECMAScript spec) produces for a consistent comparator. -/
def insertByUrgency (a : TaskLi) : List TaskLi → List TaskLi
  | [] => [a]
  | x :: xs => if cmpUrgency a x = .lt then a :: x :: xs else x :: insertByUrgency a xs

/-- `sortByUrgency()` from `script.js` on the task list (the re-append
loop, timer rebuild and counter refresh do not change the order). -/
def sortByUrgency (l : List TaskLi) : List TaskLi :=
  l.foldl (fun acc t => insertByUrgency t acc) []

/-- Claim-side weight: high 3, medium 2, low 1 (only used for tasks
whose priority is one of the three valid strings). -/
def urgWeight (t : TaskLi) : Nat := (priorityWeight t.priority).getD 0

/-- Claim-side deadline order: ascending time value, missing deadline
last. -/
def deadlineLe (a b : TaskLi) : Prop :=
  match dateKeyOf a.deadline, dateKeyOf b.deadline with
  | .fin x, .fin y => x ≤ y
  | _, .inf => True
  | .inf, .fin _ => False
  | _, _ => True

/-- Claim-side pairwise order for `sortByUrgency` output: strictly
higher weight first, ties by `deadlineLe`. -/
def urgOrder (a b : TaskLi) : Prop :=
  urgWeight b < urgWeight a ∨ (urgWeight a = urgWeight b ∧ deadlineLe a b)

/-- A task the urgency comparator treats consistently: a valid priority
string and a deadline that is absent or a parseable date (all live
tasks; `applyPriorityClass` writes only the three priority values and
date inputs produce only valid ISO dates). -/
def ValidTask (t : TaskLi) : Prop :=
  (priorityWeight t.priority).isSome = true ∧ dateKeyOf t.deadline ≠ DKey.nan

instance : DecidablePred ValidTask := fun t => by
  unfold ValidTask
  infer_instance

/-- High-priority task due 2026-01-01. -/
def deadline0101Task : TaskLi :=
  { untouchedDropTask with
    taskId := some "task-60", text := "File taxes", priority := "high"
    deadline := some "2026-01-01" }

/-- High-priority task due 2026-01-05. -/
def deadline0105Task : TaskLi :=
  { untouchedDropTask with
    taskId := some "task-61", text := "Book venue", priority := "high"
    deadline := some "2026-01-05" }

theorem updateSubstepSummary_substeps (t : TaskLi) :
    (updateSubstepSummary t).substeps = t.substeps := by
  unfold updateSubstepSummary
  split <;> rfl

theorem updateSubstepSummary_rollup (t : TaskLi)
    (h : 0 < t.substeps.length) :
    (updateSubstepSummary t).completed =
      decide (completedSubstepCount t.substeps = t.substeps.length) := by
  by_cases hc : 0 < completedSubstepCount t.substeps ∧
      completedSubstepCount t.substeps = t.substeps.length
  · unfold updateSubstepSummary
    rw [if_pos hc]
    simp [hc.2]
  · unfold updateSubstepSummary
    rw [if_neg hc]
    have hne : ¬ completedSubstepCount t.substeps = t.substeps.length := by
      intro he
      exact hc ⟨by omega, he⟩
    simp [hne]

/-- Claim C1: for every task with `N > 0` substeps, after a substep
completion toggle, a substep removal, or a (non-empty) substep add
settles, the task's `completed` flag equals
`(number of completed substeps == N)`; each of the three handlers runs
`updateSubstepSummary` synchronously before returning, so the flag is
re-evaluated within the same operation. -/
theorem substepRollup_invariant (t : TaskLi) (i : Nat) (checked : Bool)
    (input fresh : String) (hinput : ¬ trimJS input = "") :
    (0 < (substepToggleClick t i checked).substeps.length →
      (substepToggleClick t i checked).completed =
        decide (completedSubstepCount (substepToggleClick t i checked).substeps =
          (substepToggleClick t i checked).substeps.length)) ∧
    (0 < (substepDeleteClick t i).substeps.length →
      (substepDeleteClick t i).completed =
        decide (completedSubstepCount (substepDeleteClick t i).substeps =
          (substepDeleteClick t i).substeps.length)) ∧
    (0 < (addSubFromInput t input fresh).substeps.length →
      (addSubFromInput t input fresh).completed =
        decide (completedSubstepCount (addSubFromInput t input fresh).substeps =
          (addSubFromInput t input fresh).substeps.length)) := by
  refine ⟨?_, ?_, ?_⟩
  · intro h
    rw [substepToggleClick, updateSubstepSummary_substeps] at *
    exact updateSubstepSummary_rollup _ h
  · intro h
    rw [substepDeleteClick, updateSubstepSummary_substeps] at *
    exact updateSubstepSummary_rollup _ h
  · intro h
    rw [addSubFromInput] at *
    simp only [hinput, if_false] at *
    rw [updateSubstepSummary_substeps] at *
    exact updateSubstepSummary_rollup _ h

/-- Witness for Claim C1: toggling the second substep of the concrete
task to completed makes the parent's flag equal
`completedSubstepCount == N` (here `true`, with `N = 2`). -/
theorem substepRollup_invariant_witness :
    ¬ trimJS "book hotel" = "" ∧
    (0 < (substepToggleClick rollupExampleTask 1 true).substeps.length →
      (substepToggleClick rollupExampleTask 1 true).completed =
        decide (completedSubstepCount (substepToggleClick rollupExampleTask 1 true).substeps =
          (substepToggleClick rollupExampleTask 1 true).substeps.length)) :=
  ⟨by decide, (substepRollup_invariant rollupExampleTask 1 true "book hotel" "substep-2"
      (by decide)).1⟩

/-- Claim C2, evaluated at the failing input: `updateSubstepSummary` does
NOT leave a substep-free task's `completed` flag alone — with zero
substeps `completed > 0 && completed === total` is false, so the else
branch removes the `completed` class and unchecks the checkbox.  A
completed task with no substeps therefore comes out uncompleted, although
the recompute runs after every substep mutation, from
`attachTaskEventHandlers`, and twice per task in `loadTasks`. -/
theorem updateSubstepSummary_clears_completed_noSubsteps :
    completedNoSubstepTask.completed = true ∧
    completedNoSubstepTask.substeps = [] ∧
    (updateSubstepSummary completedNoSubstepTask).completed = false := by
  refine ⟨rfl, rfl, ?_⟩
  decide

theorem updateSubstepSummary_eq (t : TaskLi) :
    updateSubstepSummary t =
      { t with completed := decide (0 < completedSubstepCount t.substeps ∧
          completedSubstepCount t.substeps = t.substeps.length) } := by
  unfold updateSubstepSummary
  split <;> simp_all <;> omega

theorem loadSubstep_serializeSubstep (s : SubstepLi) (h : WellformedSubstepLi s) :
    loadSubstep (serializeSubstep s) = { s with timerRunning := false } := by
  obtain ⟨h1, h2, h3, h4⟩ := h
  obtain ⟨sid, stext, scomp, seta, selapsed, srun⟩ := s
  cases sid with
  | none => exact absurd rfl h1
  | some i =>
    have hi : i ≠ "" := by
      intro hh
      exact h2 (by simp [hh])
    cases seta with
    | none =>
      simp_all [loadSubstep, serializeSubstep, orElseJS, orElseS]
    | some e =>
      have he : e ≠ "" := by
        intro hh
        exact h3 (by simp [hh])
      simp_all [loadSubstep, serializeSubstep, orElseJS, orElseS]

theorem completedSubstepCount_map_stopTimer (l : List SubstepLi) :
    completedSubstepCount (l.map (fun s => { s with timerRunning := false })) =
      completedSubstepCount l := by
  induction l with
  | nil => rfl
  | cons s rest ih =>
    by_cases hc : s.completed <;>
      simp [completedSubstepCount, List.filter_cons, hc] <;>
      simpa [completedSubstepCount] using ih

theorem loadTask_serializeTask (t : TaskLi) (h : WellformedTaskLi t)
    (freshId : String) :
    loadTask (serializeTask t) freshId = reloadImage t := by
  obtain ⟨h1, h2, h3, h4, h5, h6, h7, h8, h9⟩ := h
  obtain ⟨tid, ttext, tdesc, tprio, tdl, teta, tcomp, turg, timp, tel, tcol, ttouch, trun,
    tsubs⟩ := t
  have hmap : List.map (fun s => loadSubstep (serializeSubstep s)) tsubs =
      List.map (fun s => { s with timerRunning := false }) tsubs := by
    apply List.map_congr_left
    intro s hs
    exact loadSubstep_serializeSubstep s (h9 s hs)
  have hcount :
      completedSubstepCount (List.map (fun s => loadSubstep (serializeSubstep s)) tsubs) =
        completedSubstepCount tsubs := by
    rw [hmap, completedSubstepCount_map_stopTimer]
  cases tid with
  | none => exact absurd rfl h1
  | some i =>
    have hi : i ≠ "" := by
      intro hh
      exact h2 (by simp [hh])
    cases tdl with
    | none =>
      cases teta with
      | none =>
        simp_all [loadTask, serializeTask, orElseJS, orElseS, reloadImage,
          updateSubstepSummary_eq, completedSubstepCount_map_stopTimer,
          List.map_map, Function.comp_def]
      | some d =>
        have hd : d ≠ "" := by
          intro hh
          exact h5 (by simp [hh])
        simp_all [loadTask, serializeTask, orElseJS, orElseS, reloadImage,
          updateSubstepSummary_eq, completedSubstepCount_map_stopTimer,
          List.map_map, Function.comp_def]
    | some dl =>
      have hdl : dl ≠ "" := by
        intro hh
        exact h4 (by simp [hh])
      cases teta with
      | none =>
        simp_all [loadTask, serializeTask, orElseJS, orElseS, reloadImage,
          updateSubstepSummary_eq, completedSubstepCount_map_stopTimer,
          List.map_map, Function.comp_def]
      | some d =>
        have hd : d ≠ "" := by
          intro hh
          exact h5 (by simp [hh])
        simp_all [loadTask, serializeTask, orElseJS, orElseS, reloadImage,
          updateSubstepSummary_eq, completedSubstepCount_map_stopTimer,
          List.map_map, Function.comp_def]

/-- Claim C3 (amended): serializing the task store and reloading it
preserves every field of every task in order — id, text, description,
deadline, ETA, urgent/important flags, `elapsedMs` (a timer paused at
65000 ms comes back with `elapsedMs = 65000` and not running), collapsed
state, and all substeps with their ids, texts, completion, ETAs and
elapsed times — EXCEPT `priority` (not serialized; reset to `'medium'`),
`timerRunning`/`matrixTouched` (not serialized; reloaded tasks and
substeps are never ticking and lose the manual-classification mark), and
the parent `completed` flag, which the final `updateSubstepSummary`
recomputes from the substeps (so it survives exactly when it already
equalled the substep roll-up, and is cleared for substep-free tasks). -/
theorem tasksStore_roundtrip (l : List TaskLi)
    (h : ∀ t ∈ l, WellformedTaskLi t) (fresh : Nat → String) :
    loadTasks (saveTasks l) fresh = l.map reloadImage := by
  suffices haux : ∀ (l : List TaskLi) (n : Nat), (∀ t ∈ l, WellformedTaskLi t) →
      ((l.map serializeTask).enumFrom n).map (fun p => loadTask p.2 (fresh p.1)) =
        l.map reloadImage by
    simpa [loadTasks, saveTasks, List.enum] using haux l 0 h
  intro l
  induction l with
  | nil => intro n hwf; rfl
  | cons t rest ih =>
    intro n hwf
    simp only [List.map_cons, List.enumFrom_cons]
    rw [loadTask_serializeTask t (hwf t (by simp))]
    rw [ih (n + 1) (fun x hx => hwf x (by simp [hx]))]

/-- Witness for Claim C3: the three-task store (one task with two
substeps, one with a timer paused at 65000 ms) reloads to exactly its
`reloadImage`. -/
theorem tasksStore_roundtrip_witness :
    (∀ t ∈ roundtripStore, WellformedTaskLi t) ∧
    loadTasks (saveTasks roundtripStore) freshTaskIds = roundtripStore.map reloadImage :=
  ⟨by decide, tasksStore_roundtrip roundtripStore (by decide) freshTaskIds⟩

/-- Counterexample to Claim C3 as stated: a store holding one completed
high-priority substep-free task does not reload field-for-field equal —
`priority` comes back `'medium'` and `completed` comes back `false`
(while `elapsedMs = 65000` does survive). -/
theorem tasksStore_roundtrip_counterexample :
    loadTasks (saveTasks [highPriorityDoneTask]) freshTaskIds ≠ [highPriorityDoneTask] ∧
    (loadTask (serializeTask highPriorityDoneTask) "task-9").priority = "medium" ∧
    highPriorityDoneTask.priority = "high" ∧
    (loadTask (serializeTask highPriorityDoneTask) "task-9").completed = false ∧
    highPriorityDoneTask.completed = true ∧
    (loadTask (serializeTask highPriorityDoneTask) "task-9").elapsedMs = "65000" := by
  refine ⟨?_, ?_, rfl, ?_, rfl, ?_⟩ <;> decide


/-- Claim C4: for a task the automatic classifier inspects (any task
whose deadline attribute is never the empty string, which holds of all
live tasks), `autoClassifyTask` sets `important` to true unless the
parsed estimate falls in the Quick category (under 15 minutes), and sets
`urgent` iff the parsed estimate is under 60 minutes or the deadline
equals the current calendar day; a task with a 10-minute estimate and no
deadline yields (urgent, not important), the Delegate quadrant. -/
theorem autoClassifyTask_spec :
    (∀ (t : TaskLi) (today : String), t.deadline ≠ some "" →
      (autoClassifyTask t today).isImportant =
        (if specImportant (parsedEta t) then "true" else "false") ∧
      (autoClassifyTask t today).isUrgent =
        (if specUrgent (parsedEta t) t.deadline today then "true" else "false")) ∧
    (autoClassifyTask quickExampleTask "2026-10-11").isUrgent = "true" ∧
    (autoClassifyTask quickExampleTask "2026-10-11").isImportant = "false" ∧
    matrixQuadrant "true" "false" = "delegate" := by
  refine ⟨?_, by decide, by decide, by decide⟩
  intro t today hdl
  constructor
  · cases he : parsedEta t with
    | none => simp [autoClassifyTask, specImportant, he]
    | some e =>
      by_cases h15 : e < 15
      · have hq : getTaskCategory e = "Quick" := by
          unfold getTaskCategory
          rw [if_pos h15]
        simp [autoClassifyTask, specImportant, he, hq, h15]
      · have hq : getTaskCategory e ≠ "Quick" := by
          unfold getTaskCategory
          rw [if_neg h15]
          split_ifs <;> decide
        simp [autoClassifyTask, specImportant, he, hq, h15]
  · cases hd : t.deadline with
    | none =>
      cases he : parsedEta t with
      | none => simp [autoClassifyTask, specUrgent, he, hd, orElseJS]
      | some e =>
        by_cases h60 : e < 60 <;>
          simp [autoClassifyTask, specUrgent, he, hd, orElseJS, h60]
    | some d =>
      have hdne : d ≠ "" := by
        intro hh
        exact hdl (by simp [hd, hh])
      cases he : parsedEta t with
      | none =>
        by_cases htoday : d = today
        · subst htoday
          simp [autoClassifyTask, specUrgent, he, hd, orElseJS, orElseS, hdne]
        · simp [autoClassifyTask, specUrgent, he, hd, orElseJS, orElseS, hdne, htoday]
      | some e =>
        by_cases htoday : d = today
        · subst htoday
          by_cases h60 : e < 60 <;>
            simp [autoClassifyTask, specUrgent, he, hd, orElseJS, orElseS, hdne, h60]
        · by_cases h60 : e < 60 <;>
            simp [autoClassifyTask, specUrgent, he, hd, orElseJS, orElseS, hdne, htoday, h60]

/-- Witness for Claim C4: the 10-minute no-deadline task satisfies the
hypothesis and classifies (urgent, not important). -/
theorem autoClassifyTask_spec_witness :
    quickExampleTask.deadline ≠ some "" ∧
    (autoClassifyTask quickExampleTask "2026-10-11").isImportant =
      (if specImportant (parsedEta quickExampleTask) then "true" else "false") ∧
    (autoClassifyTask quickExampleTask "2026-10-11").isUrgent =
      (if specUrgent (parsedEta quickExampleTask) quickExampleTask.deadline "2026-10-11"
        then "true" else "false") :=
  ⟨by decide, autoClassifyTask_spec.1 quickExampleTask "2026-10-11" (by decide)⟩

/-- Claim C7: with `diffMs` the milliseconds from now to the deadline's
23:59:59 end-of-day boundary, the countdown is overdue exactly when now
is past the boundary, critical iff fewer than 24 hours remain, urgent
iff at least 24 and fewer than 48, warning iff at least 48 and fewer
than 168, safe otherwise; a deadline exactly 24 hours out is urgent (1d
0h), exactly 168 hours out is safe (7 days), and one 25 hours past is
overdue by 1 day 1 hour. -/
theorem deadlineCountdown_buckets (diffMs : Int) :
    ((updateDeadlineCountdown diffMs).bucket = "overdue" ↔ diffMs < 0) ∧
    ((updateDeadlineCountdown diffMs).bucket = "critical" ↔
      0 ≤ diffMs ∧ diffMs < 24 * 3600000) ∧
    ((updateDeadlineCountdown diffMs).bucket = "urgent" ↔
      24 * 3600000 ≤ diffMs ∧ diffMs < 48 * 3600000) ∧
    ((updateDeadlineCountdown diffMs).bucket = "warning" ↔
      48 * 3600000 ≤ diffMs ∧ diffMs < 168 * 3600000) ∧
    ((updateDeadlineCountdown diffMs).bucket = "safe" ↔ 168 * 3600000 ≤ diffMs) ∧
    updateDeadlineCountdown (24 * 3600000) = .urgent 1 0 ∧
    updateDeadlineCountdown (168 * 3600000) = .safe 7 ∧
    updateDeadlineCountdown (-90000000) = .overdue 1 1 := by
  refine ⟨?_, ?_, ?_, ?_, ?_, by decide, by decide, by decide⟩ <;>
    · unfold updateDeadlineCountdown
      split_ifs <;> simp [CountdownDisplay.bucket] <;> omega


theorem eraseIdx_set_same {α : Type} : ∀ (l : List α) (i : Nat) (a : α),
    (l.set i a).eraseIdx i = l.eraseIdx i := by
  intro l
  induction l with
  | nil => intro i a; cases i <;> rfl
  | cons x xs ih =>
    intro i a
    cases i with
    | zero => rfl
    | succ n => simp [List.set, List.eraseIdx, ih]

theorem get?_set_same {α : Type} : ∀ (l : List α) (i : Nat) (a : α), i < l.length →
    (l.set i a).get? i = some a := by
  intro l
  induction l with
  | nil => intro i a h; simp at h
  | cons x xs ih =>
    intro i a h
    cases i with
    | zero => rfl
    | succ n =>
      simp only [List.set, List.get?]
      exact ih n a (by simpa using h)

theorem get?_set_other {α : Type} : ∀ (l : List α) (i j : Nat) (a : α), j ≠ i →
    (l.set i a).get? j = l.get? j := by
  intro l
  induction l with
  | nil => intro i j a h; rfl
  | cons x xs ih =>
    intro i j a h
    cases i with
    | zero =>
      cases j with
      | zero => exact absurd rfl h
      | succ m => rfl
    | succ n =>
      cases j with
      | zero => rfl
      | succ m => exact ih n m a (by omega)

theorem map_set_same_image {α β : Type} (f : α → β) :
    ∀ (l : List α) (i : Nat) (a : α), l.get? i = some a →
      ∀ b : α, f b = f a → (l.set i b).map f = l.map f := by
  intro l
  induction l with
  | nil => intro i a h; simp at h
  | cons x xs ih =>
    intro i a h b hb
    cases i with
    | zero =>
      simp only [List.get?] at h
      cases h
      simp [List.set, hb]
    | succ n =>
      simp only [List.get?] at h
      simp [List.set, ih n a h b hb]

/-- Claim C6 (amended): changing a task's estimate never alters its
urgent/important flags or its manual-classification mark — for every
task, classified or not, since automatic derivation is never re-invoked
by the ETA handler; an explicit urgent/important toggle writes the
toggled flag and marks `matrixTouched = 'true'`, while a matrix
drag-drop writes both flags but leaves `matrixTouched` unchanged. -/
theorem manualClassification_frame (t : TaskLi) (v : String) (checked : Bool)
    (q : String) :
    (etaInputChange t v).isUrgent = t.isUrgent ∧
    (etaInputChange t v).isImportant = t.isImportant ∧
    (etaInputChange t v).matrixTouched = t.matrixTouched ∧
    (urgentToggleChange t checked).matrixTouched = "true" ∧
    (urgentToggleChange t checked).isImportant = t.isImportant ∧
    (importantToggleChange t checked).matrixTouched = "true" ∧
    (importantToggleChange t checked).isUrgent = t.isUrgent ∧
    (matrixDrop t q).matrixTouched = t.matrixTouched := by
  refine ⟨?_, ?_, ?_, rfl, rfl, rfl, rfl, ?_⟩ <;>
    · first
      | (unfold etaInputChange; split_ifs <;> rfl)
      | (unfold matrixDrop; split_ifs <;> rfl)

/-- Counterexample to Claim C6 as stated: dropping a task on the
Do-First quadrant sets both flags but does NOT mark it manually
classified (`matrixTouched` stays `'false'`), and the urgent toggle
writes only the urgent flag, not both. -/
theorem matrixDrop_does_not_mark_manual :
    (matrixDrop untouchedDropTask "do-first").isUrgent = "true" ∧
    (matrixDrop untouchedDropTask "do-first").isImportant = "true" ∧
    (matrixDrop untouchedDropTask "do-first").matrixTouched = "false" ∧
    untouchedDropTask.matrixTouched = "false" ∧
    (urgentToggleChange untouchedDropTask true).isImportant = "false" ∧
    (urgentToggleChange untouchedDropTask true).matrixTouched = "true" := by
  refine ⟨?_, ?_, ?_, rfl, ?_, ?_⟩ <;> decide

/-- Claim C9 (amended): a task or substep estimate input clears the
stored ETA exactly when the trimmed value is empty; any nonempty value
is stored as `String(parseInt(v, 10))`, WITHOUT a non-negative-integer
check — so `'-5'` stores `-5`, an unparseable value stores the string
`'NaN'`, and `'3.7'` stores the truncated `3`. -/
theorem etaInput_validation (t : TaskLi) (s : SubstepLi) (v : String) :
    ((etaInputChange t v).etaMin = none ↔ trimJS v = "") ∧
    (¬ trimJS v = "" →
      (etaInputChange t v).etaMin = some (jsIntString (parseIntJS (trimJS v)))) ∧
    ((substepEtaInputChange s v).etaMin = none ↔ trimJS v = "") ∧
    (¬ trimJS v = "" →
      (substepEtaInputChange s v).etaMin = some (jsIntString (parseIntJS (trimJS v)))) ∧
    jsIntString (parseIntJS "abc") = "NaN" ∧
    jsIntString (parseIntJS "-5") = "-5" ∧
    jsIntString (parseIntJS "3.7") = "3" := by
  refine ⟨?_, ?_, ?_, ?_, by decide, by decide, by decide⟩ <;>
    · simp only [etaInputChange, substepEtaInputChange]
      split_ifs <;> simp_all

/-- Witness for Claim C9: the input `'-5'` is nonempty after trimming
and is stored as `-5`. -/
theorem etaInput_validation_witness :
    ¬ trimJS "-5" = "" ∧
    (etaInputChange etaExampleTask "-5").etaMin =
      some (jsIntString (parseIntJS (trimJS "-5"))) :=
  ⟨by decide, (etaInput_validation etaExampleTask etaExampleSubstep "-5").2.1 (by decide)⟩

/-- Counterexample to Claim C9 as stated: `'-5'` does not parse to a
non-negative integer, yet the handler stores `etaMin = '-5'` instead of
clearing the field; `'abc'` stores the string `'NaN'`. -/
theorem etaInput_stores_invalid :
    (etaInputChange etaExampleTask "-5").etaMin = some "-5" ∧
    parseIntJS "-5" = some (-5) ∧
    (-5 : Int) < 0 ∧
    (etaInputChange etaExampleTask "abc").etaMin = some "NaN" := by
  refine ⟨?_, ?_, by decide, ?_⟩ <;> decide

/-- Claim C10: checking a task's completion checkbox marks it completed
and moves it to the end of the canonical list, leaving the other tasks
in their original relative order (`eraseIdx i` is exactly the original
list without the clicked task); unchecking only rewrites the clicked
task in place, so the order — here the id sequence and every other
position — is unchanged. -/
theorem taskCheckbox_moveToBottom (l : List TaskLi) (i : Nat) (t : TaskLi)
    (h : l.get? i = some t) :
    taskCheckboxClick l i true = l.eraseIdx i ++ [{ t with completed := true }] ∧
    (taskCheckboxClick l i true).length = l.length ∧
    taskCheckboxClick l i false = l.set i { t with completed := false } ∧
    (taskCheckboxClick l i false).map TaskLi.taskId = l.map TaskLi.taskId ∧
    (∀ j, j ≠ i → (taskCheckboxClick l i false).get? j = l.get? j) := by
  have hlen : i < l.length := by
    by_contra hge
    rw [List.get?_eq_none.2 (by omega)] at h
    exact Option.noConfusion h
  have h1 : taskCheckboxClick l i true =
      l.eraseIdx i ++ [{ t with completed := true }] := by
    unfold taskCheckboxClick moveCompletedTaskToBottom
    rw [h]
    simp only [if_pos]
    rw [get?_set_same l i _ hlen, eraseIdx_set_same]
  have h3 : taskCheckboxClick l i false = l.set i { t with completed := false } := by
    unfold taskCheckboxClick
    rw [h]
    simp
  refine ⟨h1, ?_, h3, ?_, ?_⟩
  · rw [h1]
    simp [List.length_eraseIdx, hlen]
    omega
  · rw [h3]
    exact map_set_same_image TaskLi.taskId l i t h _ rfl
  · intro j hj
    rw [h3]
    exact get?_set_other l i j _ hj

/-- Witness for Claim C10: checking the first of three tasks moves it to
the end with the other two keeping their order; unchecking leaves the
order alone. -/
theorem taskCheckbox_moveToBottom_witness :
    checkboxStore.get? 0 = some { untouchedDropTask with taskId := some "task-50", text := "First" } ∧
    taskCheckboxClick checkboxStore 0 true =
      checkboxStore.eraseIdx 0 ++
        [{ untouchedDropTask with taskId := some "task-50", text := "First", completed := true }] ∧
    (taskCheckboxClick checkboxStore 0 false).map TaskLi.taskId =
      checkboxStore.map TaskLi.taskId := by
  have hm := taskCheckbox_moveToBottom checkboxStore 0
    { untouchedDropTask with taskId := some "task-50", text := "First" } (by decide)
  exact ⟨by decide, hm.1, hm.2.2.2.1⟩


theorem classifyLines_subSteps_match : ∀ (lines : List (List Char)) (x : List Char),
    x ∈ (classifyLines lines).1 → listMarkerTest x = true := by
  intro lines
  induction lines with
  | nil =>
    intro x hx
    simp [classifyLines] at hx
  | cons line rest ih =>
    intro x hx
    unfold classifyLines at hx
    split_ifs at hx with h1 h2
    · exact ih x hx
    · rcases List.mem_cons.1 hx with hEq | hMem
      · rw [hEq]
        exact h2
      · exact ih x hMem
    · exact ih x hx

/-- Claim C8: on the four-line example the parser returns description
`'Buy milk'` and steps `['1. eggs', '2. bread', '- cheese']` with their
markers intact, the task title is the first non-blank description line
(`'Buy milk'`), an empty description falls back to `'New Task'`, and in
general every returned sub-step line matches the leading
ordinal/bullet-marker regex (non-matching, non-blank lines go to the
description instead). -/
theorem smartParsePaste_spec :
    smartParsePaste "Buy milk\n1. eggs\n2. bread\n- cheese" =
      { description := "Buy milk", subSteps := ["1. eggs", "2. bread", "- cheese"] } ∧
    pasteTitle "Buy milk" = "Buy milk" ∧
    pasteTitle "" = "New Task" ∧
    (∀ (text s : String), s ∈ (smartParsePaste text).subSteps →
      listMarkerTest s.data = true) := by
  refine ⟨by decide, by decide, by decide, ?_⟩
  intro text s hs
  unfold smartParsePaste at hs
  split_ifs at hs
  · simp at hs
  · simp only at hs
    rcases List.mem_map.1 hs with ⟨l, hl, hEq⟩
    have hm := classifyLines_subSteps_match _ l hl
    rw [← hEq]
    exact hm

/-- Witness for Claim C8: `'1. eggs'` is among the returned sub-steps of
the example paste, and indeed matches the marker regex. -/
theorem smartParsePaste_spec_witness :
    ("1. eggs" : String) ∈
      (smartParsePaste "Buy milk\n1. eggs\n2. bread\n- cheese").subSteps ∧
    listMarkerTest ("1. eggs" : String).data = true :=
  ⟨by decide,
    smartParsePaste_spec.2.2.2 "Buy milk\n1. eggs\n2. bread\n- cheese" "1. eggs" (by decide)⟩


theorem dkeyCmp_lt_iff_gt (x y : DKey) : dkeyCmp x y = .lt ↔ dkeyCmp y x = .gt := by
  cases x <;> cases y <;> simp [dkeyCmp] <;> omega

theorem cmpUrgency_lt_iff_gt (a b : TaskLi) :
    cmpUrgency a b = .lt ↔ cmpUrgency b a = .gt := by
  unfold cmpUrgency
  cases hpa : priorityWeight a.priority with
  | none =>
    cases hpb : priorityWeight b.priority with
    | none =>
      dsimp only
      exact dkeyCmp_lt_iff_gt _ _
    | some y =>
      dsimp only
      simp
  | some x =>
    cases hpb : priorityWeight b.priority with
    | none =>
      dsimp only
      simp
    | some y =>
      dsimp only
      by_cases hxy : x = y
      · subst hxy
        rw [if_pos rfl, if_pos rfl]
        exact dkeyCmp_lt_iff_gt _ _
      · rw [if_neg hxy, if_neg (show ¬ y = x from fun h => hxy h.symm)]
        by_cases hlt : x < y
        · rw [if_pos hlt, if_neg (show ¬ y < x by omega)]
          simp
        · rw [if_neg hlt, if_pos (show y < x by omega)]
          simp

theorem cmpUrgency_ne_gt_iff (a b : TaskLi) (ha : ValidTask a) (hb : ValidTask b) :
    cmpUrgency a b ≠ .gt ↔ urgOrder a b := by
  obtain ⟨ha1, ha2⟩ := ha
  obtain ⟨hb1, hb2⟩ := hb
  unfold cmpUrgency urgOrder urgWeight deadlineLe
  cases hpa : priorityWeight a.priority with
  | none =>
    rw [hpa] at ha1
    simp at ha1
  | some x =>
    cases hpb : priorityWeight b.priority with
    | none =>
      rw [hpb] at hb1
      simp at hb1
    | some y =>
      cases hda : dateKeyOf a.deadline with
      | nan => exact absurd hda ha2
      | fin mx =>
        cases hdb : dateKeyOf b.deadline with
        | nan => exact absurd hdb hb2
        | fin my =>
          dsimp only
          simp only [dkeyCmp, Option.getD_some]
          split_ifs <;> (try simp_all) <;> omega
        | inf =>
          dsimp only
          simp only [dkeyCmp, Option.getD_some]
          split_ifs <;> (try simp_all) <;> omega
      | inf =>
        cases hdb : dateKeyOf b.deadline with
        | nan => exact absurd hdb hb2
        | fin my =>
          dsimp only
          simp only [dkeyCmp, Option.getD_some]
          split_ifs <;> (try simp_all) <;> omega
        | inf =>
          dsimp only
          simp only [dkeyCmp, Option.getD_some]
          split_ifs <;> (try simp_all) <;> omega

theorem urgOrder_trans (a b c : TaskLi) (ha : ValidTask a) (hb : ValidTask b)
    (hc : ValidTask c) : urgOrder a b → urgOrder b c → urgOrder a c := by
  obtain ⟨-, ha2⟩ := ha
  obtain ⟨-, hb2⟩ := hb
  obtain ⟨-, hc2⟩ := hc
  unfold urgOrder deadlineLe
  intro h1 h2
  rcases h1 with h1 | ⟨h1e, h1d⟩ <;> rcases h2 with h2 | ⟨h2e, h2d⟩
  · left; omega
  · left; omega
  · left; omega
  · right
    refine ⟨by omega, ?_⟩
    revert h1d h2d
    cases hda : dateKeyOf a.deadline <;> cases hdb : dateKeyOf b.deadline <;>
      cases hdc : dateKeyOf c.deadline <;> simp_all <;> omega

theorem insertByUrgency_perm (a : TaskLi) (l : List TaskLi) :
    List.Perm (insertByUrgency a l) (a :: l) := by
  induction l with
  | nil => exact List.Perm.refl _
  | cons x xs ih =>
    unfold insertByUrgency
    split_ifs
    · exact List.Perm.refl _
    · exact (ih.cons x).trans (List.Perm.swap a x xs)

theorem insertByUrgency_pairwise (a : TaskLi) (l : List TaskLi)
    (ha : ValidTask a) (hl : ∀ x ∈ l, ValidTask x)
    (hp : l.Pairwise urgOrder) : (insertByUrgency a l).Pairwise urgOrder := by
  induction l with
  | nil => simp [insertByUrgency]
  | cons x xs ih =>
    have hx : ValidTask x := hl x (by simp)
    have hxs : ∀ y ∈ xs, ValidTask y := fun y hy => hl y (by simp [hy])
    rcases List.pairwise_cons.1 hp with ⟨hxall, hpxs⟩
    unfold insertByUrgency
    split_ifs with hlt
    · have hax : urgOrder a x := (cmpUrgency_ne_gt_iff a x ha hx).1 (by rw [hlt]; decide)
      refine List.pairwise_cons.2 ⟨?_, hp⟩
      intro y hy
      rcases List.mem_cons.1 hy with rfl | hymem
      · exact hax
      · exact urgOrder_trans a x y ha hx (hxs y hymem) hax (hxall y hymem)
    · have hxa : urgOrder x a := by
        have h1 : cmpUrgency x a ≠ .gt := by
          intro hg
          exact hlt ((cmpUrgency_lt_iff_gt a x).2 hg)
        exact (cmpUrgency_ne_gt_iff x a hx ha).1 h1
      refine List.pairwise_cons.2 ⟨?_, ih hxs hpxs⟩
      intro y hy
      have hmem : y = a ∨ y ∈ xs := by
        have h2 := (insertByUrgency_perm a xs).mem_iff.1 hy
        simpa using h2
      rcases hmem with rfl | hymem
      · exact hxa
      · exact hxall y hymem

theorem sortByUrgency_pairwise (l : List TaskLi) (h : ∀ x ∈ l, ValidTask x) :
    (sortByUrgency l).Pairwise urgOrder := by
  suffices haux : ∀ (l acc : List TaskLi),
      (∀ x ∈ l, ValidTask x) → (∀ x ∈ acc, ValidTask x) → acc.Pairwise urgOrder →
      (l.foldl (fun acc t => insertByUrgency t acc) acc).Pairwise urgOrder by
    exact haux l [] h (by simp) (by simp)
  intro l
  induction l with
  | nil =>
    intro acc h1 h2 h3
    simpa using h3
  | cons t rest ih =>
    intro acc h1 h2 h3
    simp only [List.foldl_cons]
    apply ih
    · intro x hx
      exact h1 x (by simp [hx])
    · intro x hx
      have h4 := (insertByUrgency_perm t acc).mem_iff.1 hx
      rcases (by simpa using h4 : x = t ∨ x ∈ acc) with rfl | hm
      · exact h1 x (by simp)
      · exact h2 x hm
    · exact insertByUrgency_pairwise t acc (h1 t (by simp)) h2 h3

theorem sortByUrgency_perm (l : List TaskLi) : List.Perm (sortByUrgency l) l := by
  suffices haux : ∀ (l acc : List TaskLi),
      List.Perm (l.foldl (fun acc t => insertByUrgency t acc) acc) (acc ++ l) by
    simpa [sortByUrgency] using haux l []
  intro l
  induction l with
  | nil =>
    intro acc
    simp
  | cons t rest ih =>
    intro acc
    simp only [List.foldl_cons]
    refine (ih (insertByUrgency t acc)).trans ?_
    refine ((insertByUrgency_perm t acc).append_right rest).trans ?_
    exact List.perm_middle.symm

/-- Claim C5: `sortByUrgency` permutes the task list into an order that
is pairwise sorted by descending priority weight (high 3, medium 2,
low 1) with ties broken by ascending deadline time where a missing
deadline sorts last; two high-priority tasks with deadlines 2026-01-05
and 2026-01-01 come out with the 2026-01-01 task first. -/
theorem sortByUrgency_spec :
    (∀ l : List TaskLi, List.Perm (sortByUrgency l) l) ∧
    (∀ l : List TaskLi, (∀ x ∈ l, ValidTask x) →
      (sortByUrgency l).Pairwise urgOrder) ∧
    sortByUrgency [deadline0105Task, deadline0101Task] =
      [deadline0101Task, deadline0105Task] :=
  ⟨sortByUrgency_perm, sortByUrgency_pairwise, by decide⟩

/-- Witness for Claim C5: the two concrete high-priority tasks are
valid, and the sorted result is pairwise ordered. -/
theorem sortByUrgency_spec_witness :
    (∀ x ∈ [deadline0105Task, deadline0101Task], ValidTask x) ∧
    (sortByUrgency [deadline0105Task, deadline0101Task]).Pairwise urgOrder :=
  ⟨by decide, sortByUrgency_spec.2.1 [deadline0105Task, deadline0101Task] (by decide)⟩
